import Mathlib

/-
  Verification development for the Nano33SenseRev2 serial bridge
  (src/Server/main.py): the packet decoder, the capacity-1 latest-value
  mailbox, the command formatting, the background reading loop and the
  shutdown path, shallowly embedded in Lean.

  Conventions of the embedding:
  - Python values decoded from JSON are modelled by the inductive Json
    below; Python None and JSON null are the same object after
    json.loads, so Json.null plays both roles.
  - Fallible Python code is embedded in Except PyErr; an uncaught Python
    exception is an Except.error value.
  - queue.Queue with maxsize 1 is modelled as a List holding its items in
    FIFO order; get removes the head, put appends at the tail.
  - Wall-clock timestamps are threaded as an explicit Nat parameter.
-/

namespace DevAIoT

/-- Uncaught Python exceptions relevant to this program. -/
inductive PyErr where
  | attributeError
  | serialException
  | queueFull
deriving DecidableEq, Repr

/-- Python values produced by json.loads: JSON null (equal to Python
None), booleans, ints, floats, strings, lists and dicts. A dict is kept
as the list of key/value pairs in source order; lookup takes the last
occurrence of a key, matching dict construction by repeated insertion.
Python floats are modelled as exact rationals: the decimal-to-double
rounding of the C double type is not modelled, and no claim here depends
on it. -/
inductive Json where
  | null : Json
  | bool : Bool → Json
  | inum : Int → Json
  | fnum : ℚ → Json
  | str : String → Json
  | arr : List Json → Json
  | obj : List (String × Json) → Json

/-! ### A model of json.loads

The wire format is standard JSON (RFC 8259) as accepted by Python
json.loads in its default strict mode: one value, surrounding
whitespace allowed, strings with escapes, numbers without leading
zeroes, objects and arrays. The nonstandard NaN/Infinity extensions of
the Python parser are not modelled; they would only enlarge the set of
accepted inputs and no claim depends on them. The parser is written
with explicit fuel; the initial fuel 2 * length + 8 dominates the
recursion depth, since every two nested calls consume at least one
input character. -/

/-- The four JSON whitespace characters. -/
def jsonWs (c : Char) : Bool :=
  c = ' ' || c = '\t' || c = '\n' || c = '\r'

/-- Drop leading JSON whitespace. -/
def skipWs : List Char → List Char
  | [] => []
  | c :: cs => if jsonWs c then skipWs cs else c :: cs

/-- Value of one hexadecimal digit. -/
def hexVal (c : Char) : Option Nat :=
  if '0' ≤ c ∧ c ≤ '9' then some (c.toNat - '0'.toNat)
  else if 'a' ≤ c ∧ c ≤ 'f' then some (c.toNat - 'a'.toNat + 10)
  else if 'A' ≤ c ∧ c ≤ 'F' then some (c.toNat - 'A'.toNat + 10)
  else none

/-- Parse the body of a JSON string after the opening quote, handling
the escape sequences of strict-mode json.loads and rejecting raw
control characters. Returns the string and the input after the closing
quote. -/
def parseStr (acc : List Char) : List Char → Option (String × List Char)
  | [] => none
  | c :: cs =>
    if c = '"' then some (String.mk acc.reverse, cs)
    else if c = '\\' then
      match cs with
      | [] => none
      | e :: cs2 =>
        if e = '"' then parseStr ('"' :: acc) cs2
        else if e = '\\' then parseStr ('\\' :: acc) cs2
        else if e = '/' then parseStr ('/' :: acc) cs2
        else if e = 'b' then parseStr ('\x08' :: acc) cs2
        else if e = 'f' then parseStr ('\x0C' :: acc) cs2
        else if e = 'n' then parseStr ('\n' :: acc) cs2
        else if e = 'r' then parseStr ('\r' :: acc) cs2
        else if e = 't' then parseStr ('\t' :: acc) cs2
        else if e = 'u' then
          match cs2 with
          | h1 :: h2 :: h3 :: h4 :: cs3 =>
            match hexVal h1, hexVal h2, hexVal h3, hexVal h4 with
            | some a, some b, some c3, some d =>
              parseStr (Char.ofNat (((a * 16 + b) * 16 + c3) * 16 + d) :: acc) cs3
            | _, _, _, _ => none
          | _ => none
        else none
    else if c.toNat < 32 then none
    else parseStr (c :: acc) cs

/-- Numeric value of a digit string. -/
def digitsVal (ds : List Char) : Nat :=
  ds.foldl (fun n c => n * 10 + (c.toNat - '0'.toNat)) 0

/-- Split off the longest leading run of decimal digits. -/
def spanDigits : List Char → (List Char × List Char)
  | [] => ([], [])
  | c :: cs =>
    if c.isDigit then
      let (ds, rest) := spanDigits cs
      (c :: ds, rest)
    else ([], c :: cs)

/-- Optional fraction part: a dot must be followed by at least one
digit; absence of a dot is fine and yields no fraction digits. -/
def parseFracPart (cs : List Char) : Option (List Char × List Char) :=
  match cs with
  | '.' :: rest =>
    let (fd, r2) := spanDigits rest
    if fd.isEmpty then none else some (fd, r2)
  | _ => some ([], cs)

/-- Optional exponent part. -/
def parseExpPart (cs : List Char) : Option (Option Int × List Char) :=
  match cs with
  | c :: rest =>
    if c = 'e' ∨ c = 'E' then
      let (esign, r1) :=
        match rest with
        | '+' :: r => ((1 : Int), r)
        | '-' :: r => ((-1 : Int), r)
        | _ => ((1 : Int), rest)
      let (eds, r2) := spanDigits r1
      if eds.isEmpty then none
      else some (some (esign * (digitsVal eds : Int)), r2)
    else some (none, cs)
  | [] => some (none, [])

/-- Assemble a parsed JSON number. Like Python, a bare integer literal
becomes an int and anything with a fraction or exponent becomes a
float. -/
def mkNum (neg : Bool) (ip : Nat) (frac : List Char) (ex : Option Int) : Json :=
  match frac, ex with
  | [], none => Json.inum (if neg then -(ip : Int) else (ip : Int))
  | _, _ =>
    let base : ℚ := (ip : ℚ) + (digitsVal frac : ℚ) / ((10 : ℚ) ^ frac.length)
    let m : ℚ := if neg then -base else base
    Json.fnum (m * (10 : ℚ) ^ (ex.getD 0))

/-- Parse a JSON number token at the head of the input. -/
def parseNum (cs : List Char) : Option (Json × List Char) :=
  let (neg, cs1) :=
    match cs with
    | '-' :: rest => (true, rest)
    | _ => (false, cs)
  match cs1 with
  | [] => none
  | c :: _ =>
    if c.isDigit then
      let (ds, cs2) := spanDigits cs1
      if c = '0' ∧ ds.length ≠ 1 then none
      else
        match parseFracPart cs2 with
        | none => none
        | some (fd, cs3) =>
          match parseExpPart cs3 with
          | none => none
          | some (ex, cs4) => some (mkNum neg (digitsVal ds) fd ex, cs4)
    else none

/-- Match a literal keyword tail such as rue, alse, ull. -/
def dropLit : List Char → List Char → Option (List Char)
  | [], cs => some cs
  | _ :: _, [] => none
  | p :: ps, c :: cs => if p = c then dropLit ps cs else none

mutual

/-- Parse one JSON value, returning it and the remaining input. -/
def parseVal : Nat → List Char → Option (Json × List Char)
  | 0, _ => none
  | f + 1, cs =>
    match skipWs cs with
    | [] => none
    | c :: rest =>
      if c = '"' then
        match parseStr [] rest with
        | some (s, r) => some (Json.str s, r)
        | none => none
      else if c = '\x7b' then
        match skipWs rest with
        | '\x7d' :: r2 => some (Json.obj [], r2)
        | cs2 =>
          match parseMembers f cs2 with
          | some (ms, r2) => some (Json.obj ms, r2)
          | none => none
      else if c = '[' then
        match skipWs rest with
        | ']' :: r2 => some (Json.arr [], r2)
        | cs2 =>
          match parseElems f cs2 with
          | some (vs, r2) => some (Json.arr vs, r2)
          | none => none
      else if c = 't' then
        match dropLit ['r', 'u', 'e'] rest with
        | some r => some (Json.bool true, r)
        | none => none
      else if c = 'f' then
        match dropLit ['a', 'l', 's', 'e'] rest with
        | some r => some (Json.bool false, r)
        | none => none
      else if c = 'n' then
        match dropLit ['u', 'l', 'l'] rest with
        | some r => some (Json.null, r)
        | none => none
      else parseNum (c :: rest)

/-- Parse the comma-separated elements of a nonempty array up to and
including the closing bracket. -/
def parseElems : Nat → List Char → Option (List Json × List Char)
  | 0, _ => none
  | f + 1, cs =>
    match parseVal f cs with
    | none => none
    | some (v, r) =>
      match skipWs r with
      | ',' :: r2 =>
        match parseElems f r2 with
        | some (vs, r3) => some (v :: vs, r3)
        | none => none
      | ']' :: r2 => some ([v], r2)
      | _ => none

/-- Parse the comma-separated members of a nonempty object up to and
including the closing brace. -/
def parseMembers : Nat → List Char → Option (List (String × Json) × List Char)
  | 0, _ => none
  | f + 1, cs =>
    match skipWs cs with
    | '"' :: r =>
      match parseStr [] r with
      | none => none
      | some (k, r2) =>
        match skipWs r2 with
        | ':' :: r3 =>
          match parseVal f r3 with
          | none => none
          | some (v, r4) =>
            match skipWs r4 with
            | ',' :: r5 =>
              match parseMembers f r5 with
              | some (ms, r6) => some ((k, v) :: ms, r6)
              | none => none
            | '\x7d' :: r5 => some ([(k, v)], r5)
            | _ => none
        | _ => none
    | _ => none

end

/-- Model of Python json.loads: parse exactly one JSON value with
optional surrounding whitespace; none models the ValueError raised on
any malformed input (including trailing data). -/
def json_loads (s : String) : Option Json :=
  match parseVal (2 * s.toList.length + 8) s.toList with
  | some (v, rest) => if skipWs rest = [] then some v else none
  | none => none

/-! ### The SensorPacket data model (src/Server/main.py lines 20 to 56)

The Python dataclass declares Optional fields, but being dynamically
typed it stores whatever value obj.get returned without conversion, so
each field is embedded as a Json value; Json.null is the Python None
default that marks an absent field. The frozen-dataclass timestamp is
a wall-clock instant threaded in as a Nat. Vec3 and ApdsColor are
declared in the source but never constructed by parse_packet, which
stores the raw decoded JSON; the embedding therefore needs no separate
types for them. -/

structure SensorPacket where
  timestamp : Nat
  hs3003_t_c : Json := Json.null
  hs3003_h_rh : Json := Json.null
  lps22hb_p_kpa : Json := Json.null
  lps22hb_t_c : Json := Json.null
  apds_prox : Json := Json.null
  apds_color : Json := Json.null
  apds_gesture : Json := Json.null
  acc_g : Json := Json.null
  gyro_dps : Json := Json.null
  mag_uT : Json := Json.null

/-- Last-occurrence lookup in a key/value list: the value the Python
dict built from these pairs associates with k (later pairs overwrite
earlier ones). -/
def dict_get (kvs : List (String × Json)) (k : String) : Option Json :=
  match kvs with
  | [] => none
  | (k1, v) :: rest =>
    match dict_get rest k with
    | some w => some w
    | none => if k1 = k then some v else none

/-- Python dict.get k: the stored value, or None when the key is
missing. Since JSON null decodes to Python None, a stored null and a
missing key give the same Python result. -/
def py_dict_get (kvs : List (String × Json)) (k : String) : Json :=
  (dict_get kvs k).getD Json.null

/-- The ten recognized wire keys, in the order the source reads them. -/
def recognized_keys : List String :=
  ["hs3003_t_c", "hs3003_h_rh", "lps22hb_p_kpa", "lps22hb_t_c",
   "apds_prox", "apds_color", "apds_gesture", "acc_g", "gyro_dps", "mag_uT"]

/-- The field of a SensorPacket named by a recognized wire key. -/
def SensorPacket.getField (p : SensorPacket) (k : String) : Json :=
  if k = "hs3003_t_c" then p.hs3003_t_c
  else if k = "hs3003_h_rh" then p.hs3003_h_rh
  else if k = "lps22hb_p_kpa" then p.lps22hb_p_kpa
  else if k = "lps22hb_t_c" then p.lps22hb_t_c
  else if k = "apds_prox" then p.apds_prox
  else if k = "apds_color" then p.apds_color
  else if k = "apds_gesture" then p.apds_gesture
  else if k = "acc_g" then p.acc_g
  else if k = "gyro_dps" then p.gyro_dps
  else if k = "mag_uT" then p.mag_uT
  else Json.null

/-- Embedding of parse_packet (src/Server/main.py lines 59 to 81).
The try block covers only the json.loads call, so a ValueError from a
malformed line is caught and becomes None, but when json.loads returns
a non-dict value (a JSON number, string, array, boolean or null at top
level) the subsequent obj.get attribute accesses are outside the try
and raise AttributeError, which escapes. now is the wall clock read by
datetime.now at packet construction. -/
def parse_packet (now : Nat) (line : String) : Except PyErr (Option SensorPacket) :=
  match json_loads line with
  | none => Except.ok none
  | some (Json.obj kvs) =>
    Except.ok (some
      { timestamp := now
        hs3003_t_c := py_dict_get kvs "hs3003_t_c"
        hs3003_h_rh := py_dict_get kvs "hs3003_h_rh"
        lps22hb_p_kpa := py_dict_get kvs "lps22hb_p_kpa"
        lps22hb_t_c := py_dict_get kvs "lps22hb_t_c"
        apds_prox := py_dict_get kvs "apds_prox"
        apds_color := py_dict_get kvs "apds_color"
        apds_gesture := py_dict_get kvs "apds_gesture"
        acc_g := py_dict_get kvs "acc_g"
        gyro_dps := py_dict_get kvs "gyro_dps"
        mag_uT := py_dict_get kvs "mag_uT" })
  | some _ => Except.error PyErr.attributeError

/-! ### Correctly-typed wire values

The wire format declares hs3003_t_c, hs3003_h_rh, lps22hb_p_kpa and
lps22hb_t_c as floats, apds_prox and apds_gesture as ints, apds_color
as four ints, and acc_g, gyro_dps and mag_uT as 3-element float
vectors. A JSON int is accepted where a float is declared, as Python
ints are valid float payloads. -/

/-- The value is a JSON number. -/
def is_num_json : Json → Bool
  | Json.inum _ => true
  | Json.fnum _ => true
  | _ => false

/-- The value is a JSON integer. -/
def is_int_json : Json → Bool
  | Json.inum _ => true
  | _ => false

/-- The value is a 3-element numeric vector. -/
def is_vec3_json : Json → Bool
  | Json.arr [a, b, c] => is_num_json a && is_num_json b && is_num_json c
  | _ => false

/-- The value is a 4-channel integer color. -/
def is_color4_json : Json → Bool
  | Json.arr [r, g, b, c] =>
    is_int_json r && is_int_json g && is_int_json b && is_int_json c
  | _ => false

/-- The value has the type the wire format declares for the recognized
key k. -/
def well_typed_value (k : String) (v : Json) : Bool :=
  if k = "hs3003_t_c" ∨ k = "hs3003_h_rh" ∨ k = "lps22hb_p_kpa" ∨ k = "lps22hb_t_c"
    then is_num_json v
  else if k = "apds_prox" ∨ k = "apds_gesture" then is_int_json v
  else if k = "apds_color" then is_color4_json v
  else if k = "acc_g" ∨ k = "gyro_dps" ∨ k = "mag_uT" then is_vec3_json v
  else false

/-! ### The mailbox (queue.Queue with maxsize 1)

src/Server/main.py line 106 creates the latest-packet queue with
maxsize 1. The queue is modelled as the list of its items in FIFO
order. -/

/-- The maxsize argument of the Queue holding the latest packet. -/
def mailbox_maxsize : Nat := 1

/-- The mailbox contents right after construction: empty. -/
def mailbox_init : List SensorPacket := []

/-- Queue.put with block set to False: append when below capacity,
raise queue.Full otherwise. -/
def queue_put_nowait {α : Type} (cap : Nat) (x : α) (q : List α) :
    Except PyErr (List α) :=
  if q.length < cap then Except.ok (q ++ [x]) else Except.error PyErr.queueFull

/-- Embedding of clear_queue (src/Server/main.py lines 84 to 90): call
get_nowait and task_done until the queue raises Empty. -/
def clear_queue {α : Type} : List α → List α
  | [] => []
  | _ :: rest => clear_queue rest

/-- Embedding of Nano33SenseRev2._set_latest_package (lines 154 to
156): drain the queue, then put the new packet without blocking. -/
def set_latest_package {α : Type} (pkt : α) (q : List α) : Except PyErr (List α) :=
  queue_put_nowait mailbox_maxsize pkt (clear_queue q)

/-- The timeout in seconds passed to Queue.get by get_state (line
139). -/
def get_state_timeout : Nat := 2

/-- Embedding of Nano33SenseRev2.get_state (lines 137 to 143): get
with a 2 second timeout removes and returns the head when the queue is
nonempty; on an empty queue the get times out, the queue.Empty
exception is caught, and None is returned. The try/except makes the
operation total, hence the Except result is always ok. -/
def get_state {α : Type} (q : List α) : Except PyErr (Option α × List α) :=
  match q with
  | [] => Except.ok (none, [])
  | x :: rest => Except.ok (some x, rest)

/-! ### Commands and the serial wire (lines 112 to 152) -/

/-- Python str.endswith applied to a single newline: the last
character of the string is a newline. -/
def ends_with_newline (msg : String) : Bool :=
  msg.data.getLast? == some '\n'

/-- Embedding of Nano33SenseRev2._send (lines 149 to 152): the byte
string written to the serial port is the message with a newline
appended when it does not already end in one. -/
def send_wire (msg : String) : String :=
  if ends_with_newline msg then msg else msg ++ "\n"

/-- Embedding of Nano33SenseRev2.rgb (lines 119 to 123): each
component is clamped into the range 0 to 255 with max and min (the
source first applies int, which is the identity on the Int inputs
modelled here), then the RGB command string is formatted and sent. The
result is the exact wire string produced. -/
def rgb_command (r g b : Int) : String :=
  let r1 := max 0 (min 255 r)
  let g1 := max 0 (min 255 g)
  let b1 := max 0 (min 255 b)
  send_wire ("RGB=" ++ toString r1 ++ "," ++ toString g1 ++ "," ++ toString b1)

/-! ### The serial port and session shutdown (lines 101, 176 to 182) -/

/-- The observable state of the pyserial Serial object: whether the
handle is open, and whether it is in an error state in which close
itself raises. -/
structure SerialPort where
  isOpen : Bool
  faulty : Bool
deriving DecidableEq, Repr

/-- serial.Serial.close: raises when the connection is in an error
state, otherwise marks the handle closed (closing an already closed
port is a no-op). -/
def serial_close (s : SerialPort) : Except PyErr SerialPort :=
  if s.faulty then Except.error PyErr.serialException
  else Except.ok { s with isOpen := false }

/-- The lifecycle state of a Nano33SenseRev2 session relevant to
close: the running flag polled by the reading loop and the serial
handle. -/
structure Device where
  running : Bool
  ser : SerialPort
deriving DecidableEq, Repr

/-- Embedding of Nano33SenseRev2.close (lines 176 to 182): clear the
running flag, sleep briefly (a pure time delay, no state change), then
try to close the serial port, suppressing any exception. -/
def Device.close (d : Device) : Device :=
  let d1 : Device := { d with running := false }
  match serial_close d1.ser with
  | Except.ok s => { d1 with ser := s }
  | Except.error _ => d1

/-! ### The background reading loop (lines 158 to 174)

One loop iteration is driven by what the serial port produced, so the
loop is embedded as a function of a finite script of read outcomes.
shutdown stands for the while condition observing that the running
flag was cleared by close; timeout is readline returning zero bytes
after its 1 second timeout; line s is a nonempty read whose bytes
lossily decode to s; ioError is readline raising (for example a
SerialException on a dying link). The configured on_packet observer
(show, line 186) returns immediately and is effect free, so it is not
modelled. -/

inductive LoopEvent where
  | shutdown : LoopEvent
  | timeout : LoopEvent
  | line : String → LoopEvent
  | ioError : LoopEvent

/-- Python str.strip with no argument: drop whitespace from both ends
(the wire protocol only ever produces ASCII whitespace). -/
def py_strip (s : String) : String :=
  String.mk
    (((s.data.dropWhile Char.isWhitespace).reverse.dropWhile
        Char.isWhitespace).reverse)

/-- Embedding of Nano33SenseRev2._read_loop. The loop body has no
exception handler, so a readline error or a parse_packet error
propagates and kills the daemon thread; this is modelled by the
Except.error result. A normal result carries true when the loop exited
because the running flag was observed false, and false when the event
script ended with the loop still live, together with the final mailbox
contents. -/
def read_loop (now : Nat) :
    List LoopEvent → List SensorPacket → Except PyErr (Bool × List SensorPacket)
  | [], q => Except.ok (false, q)
  | LoopEvent.shutdown :: _, q => Except.ok (true, q)
  | LoopEvent.timeout :: rest, q => read_loop now rest q
  | LoopEvent.ioError :: _, _ => Except.error PyErr.serialException
  | LoopEvent.line s :: rest, q =>
    match parse_packet now (py_strip s) with
    | Except.error e => Except.error e
    | Except.ok none => read_loop now rest q
    | Except.ok (some pkt) =>
      match set_latest_package pkt q with
      | Except.error e => Except.error e
      | Except.ok q1 => read_loop now rest q1

/-! ### Python str rendering and the temperature tool (lines 221 to 228)

get_current_temperature calls str on the hs3003_t_c field. py_repr
renders a decoded JSON value the way Python repr does; py_str is str,
which differs from repr only on strings. Exact float formatting and
escaping inside repr of strings are not modelled faithfully (no claim
depends on them); the case every claim uses is str None, which is the
string None. -/

/-- Join rendered items with a comma and a space. -/
def commaJoin : List String → String
  | [] => ""
  | [s] => s
  | s :: rest => s ++ ", " ++ commaJoin rest

/-- Python repr of a decoded JSON value. -/
def py_repr : Json → String
  | Json.null => "None"
  | Json.bool b => if b then "True" else "False"
  | Json.inum n => toString n
  | Json.fnum q => toString q
  | Json.str s => "\x27" ++ s ++ "\x27"
  | Json.arr xs => "[" ++ commaJoin (xs.attach.map fun x => py_repr x.1) ++ "]"
  | Json.obj ms =>
    "\x7b" ++
      commaJoin (ms.attach.map fun m => "\x27" ++ m.1.1 ++ "\x27: " ++ py_repr m.1.2) ++
    "\x7d"
decreasing_by
  · have h := List.sizeOf_lt_of_mem x.2
    simp only [Json.arr.sizeOf_spec]
    omega
  · have h := List.sizeOf_lt_of_mem m.2
    have h2 : sizeOf m.1.2 < sizeOf m.1 := by
      obtain ⟨a, b⟩ := m.1
      simp only [Prod.mk.sizeOf_spec]
      omega
    simp only [Json.obj.sizeOf_spec]
    omega

/-- Python str of a decoded JSON value. -/
def py_str (v : Json) : String :=
  match v with
  | Json.str s => s
  | v => py_repr v

/-- Embedding of the get_current_temperature tool (lines 221 to 228):
take from the mailbox via get_state; a returned packet (dataclass
instances are always truthy) yields str of its hs3003_t_c field
followed by the literal text, while a None from get_state yields
Python None, modelled as the none result. -/
def get_current_temperature (q : List SensorPacket) :
    Except PyErr (Option String × List SensorPacket) :=
  match get_state q with
  | Except.ok (some st, q1) =>
    Except.ok (some (py_str st.hs3003_t_c ++ " degrees celsius"), q1)
  | Except.ok (none, q1) => Except.ok (none, q1)
  | Except.error e => Except.error e

/-! ### Interleaving model of one publish racing one take

The publisher runs _set_latest_package, whose primitive queue
operations (each atomic under the internal queue lock) are: repeat
get_nowait until Empty, then put without blocking. The taker runs the
single get-with-timeout of get_state, which commits atomically either
by removing the head of a nonempty queue or by giving up on a queue
that is empty at the moment its timeout expires. The scenario of the
claim is a single publish of one reading X into a mailbox that has
never held anything else, concurrent with a single take. -/

inductive PubPC where
  | clearing : PubPC
  | putting : PubPC
  | done : PubPC
  | crashed : PubPC
deriving DecidableEq, Repr

/-- A global state of the race: the queue contents, the publisher
program counter, and the take outcome (none while the take is still
pending, some r once it committed with result r). -/
structure MailboxRace where
  q : List SensorPacket
  pc : PubPC
  taken : Option (Option SensorPacket)

/-- The atomic transitions of one publish of X interleaved with one
take. -/
inductive raceStep (X : SensorPacket) : MailboxRace → MailboxRace → Prop where
  | clearGet (y : SensorPacket) (rest : List SensorPacket)
      (t : Option (Option SensorPacket)) :
      raceStep X ⟨y :: rest, PubPC.clearing, t⟩ ⟨rest, PubPC.clearing, t⟩
  | clearEmpty (t : Option (Option SensorPacket)) :
      raceStep X ⟨[], PubPC.clearing, t⟩ ⟨[], PubPC.putting, t⟩
  | putOk (t : Option (Option SensorPacket)) :
      raceStep X ⟨[], PubPC.putting, t⟩ ⟨[X], PubPC.done, t⟩
  | putFull (y : SensorPacket) (rest : List SensorPacket)
      (t : Option (Option SensorPacket)) :
      raceStep X ⟨y :: rest, PubPC.putting, t⟩ ⟨y :: rest, PubPC.crashed, t⟩
  | takeGet (y : SensorPacket) (rest : List SensorPacket) (pc : PubPC) :
      raceStep X ⟨y :: rest, pc, none⟩ ⟨rest, pc, some (some y)⟩
  | takeTO (pc : PubPC) :
      raceStep X ⟨[], pc, none⟩ ⟨[], pc, some none⟩

/-- Initial race state: empty mailbox, publisher about to clear, take
pending. -/
def raceInit : MailboxRace := ⟨[], PubPC.clearing, none⟩

/-- Inductive invariant of the race. -/
def raceInv (X : SensorPacket) (s : MailboxRace) : Prop :=
  match s.pc with
  | PubPC.clearing => s.q = [] ∧ (s.taken = none ∨ s.taken = some none)
  | PubPC.putting => s.q = [] ∧ (s.taken = none ∨ s.taken = some none)
  | PubPC.done =>
    (s.q = [X] ∧ (s.taken = none ∨ s.taken = some none)) ∨
    (s.q = [] ∧ s.taken = some (some X))
  | PubPC.crashed => False

/-! ## Helper lemmas -/

/-- Draining the queue always ends with an empty queue. -/
theorem clear_queue_eq_nil {α : Type} (q : List α) : clear_queue q = [] := by
  induction q with
  | nil => rfl
  | cons x rest ih => simpa [clear_queue] using ih

/-- Publishing always succeeds and leaves exactly the new packet in
the mailbox. -/
theorem set_latest_package_eq {α : Type} (pkt : α) (q : List α) :
    set_latest_package pkt q = Except.ok [pkt] := by
  simp [set_latest_package, clear_queue_eq_nil, queue_put_nowait, mailbox_maxsize]

/-- The trailing-newline test only looks at the second operand of an
append when that operand is nonempty. -/
theorem ends_with_newline_append (s t : String) (h : t.data ≠ []) :
    ends_with_newline (s ++ t) = ends_with_newline t := by
  simp [ends_with_newline, String.data_append, List.getLast?_append_of_ne_nil _ h]

set_option maxRecDepth 8192 in
/-- The decimal rendering of a small natural number is nonempty and
does not end in a newline. -/
theorem natRepr_facts :
    ∀ n < 256, ends_with_newline (Nat.repr n) = false ∧ (Nat.repr n).data ≠ [] := by
  decide

/-- toString of a nonnegative integer agrees with Nat.repr. -/
theorem toString_intOfNat (n : ℕ) : toString ((n : ℕ) : ℤ) = Nat.repr n := rfl

/-- The decimal rendering of a clamped component is nonempty and does
not end in a newline. -/
theorem toString_int_facts (i : Int) (h0 : 0 ≤ i) (h1 : i ≤ 255) :
    ends_with_newline (toString i) = false ∧ (toString i).data ≠ [] := by
  lift i to ℕ using h0 with n
  have hn : n < 256 := by exact_mod_cast Int.lt_add_one_iff.mpr h1
  simpa [toString_intOfNat] using natRepr_facts n hn

/-- A message with no trailing newline gets one appended by _send. -/
theorem send_wire_append (msg : String) (h : ends_with_newline msg = false) :
    send_wire msg = msg ++ "\n" := by
  simp [send_wire, h]

/-! ## Claim theorems -/

/-- Claim C1. The claim states that parse_packet is total: it never
raises for any input line, and any input that is not a valid packet
yields None. The code violates this: the try block covers only
json.loads, so a line that is valid JSON but not a JSON object (the
number 5, or even the literal null) reaches obj.get and raises
AttributeError. This theorem evaluates the embedded parse_packet at
such failing inputs, and also records that genuinely malformed input
is indeed mapped to None as intended. -/
theorem parse_packet_nonobject_crash :
    parse_packet 0 "5" = Except.error PyErr.attributeError ∧
    parse_packet 0 "null" = Except.error PyErr.attributeError ∧
    parse_packet 0 "not json" = Except.ok none :=
  ⟨rfl, rfl, rfl⟩

/-- Claim C3. Publishing A, then publishing B, then taking from the
mailbox returns B and leaves the mailbox empty, so an immediate second
take without an intervening publish times out and yields the no-data
result. -/
theorem publish_publish_take (A B : SensorPacket) (q : List SensorPacket) :
    ∃ q1 q2,
      set_latest_package A q = Except.ok q1 ∧
      set_latest_package B q1 = Except.ok q2 ∧
      get_state q2 = Except.ok (some B, []) ∧
      get_state ([] : List SensorPacket) = Except.ok (none, []) :=
  ⟨[A], [B], set_latest_package_eq A q, set_latest_package_eq B [A], rfl, rfl⟩

/-- Claim C4. The claim states the reading loop survives transient I/O
errors (log and continue) and terminates only on an explicit shutdown
request. The code has no exception handler in _read_loop, so this
theorem evaluates the embedded loop showing that a readline error
kills it, as does a decodable line holding a JSON non-object (via the
AttributeError of parse_packet); a read timeout and a malformed line
are survived, and a cleared running flag exits the loop normally. -/
theorem read_loop_crash_evidence :
    read_loop 0 [LoopEvent.ioError] [] = Except.error PyErr.serialException ∧
    read_loop 0 [LoopEvent.line "5"] [] = Except.error PyErr.attributeError ∧
    read_loop 0 [LoopEvent.timeout, LoopEvent.shutdown] [] = Except.ok (true, []) ∧
    read_loop 0 [LoopEvent.line "not json", LoopEvent.shutdown] [] =
      Except.ok (true, []) :=
  ⟨rfl, rfl, rfl, rfl⟩

/-- Claim C5. The tri-color command clamps each component silently
into the range 0 to 255 and writes the wire string RGB=r,g,b with a
trailing newline: components already in range pass through unchanged,
out-of-range components behave exactly as their clamped value, and in
particular the inputs 300, -5, 128 produce the wire string
RGB=255,0,128 followed by a newline. -/
theorem rgb_command_spec :
    (∀ r g b : Int, 0 ≤ r → r ≤ 255 → 0 ≤ g → g ≤ 255 → 0 ≤ b → b ≤ 255 →
      rgb_command r g b =
        "RGB=" ++ toString r ++ "," ++ toString g ++ "," ++ toString b ++ "\n") ∧
    (∀ r g b : Int, rgb_command r g b =
      rgb_command (max 0 (min 255 r)) (max 0 (min 255 g)) (max 0 (min 255 b))) ∧
    rgb_command 300 (-5) 128 = "RGB=255,0,128\n" := by
  refine ⟨?_, ?_, by decide⟩
  · intro r g b hr0 hr1 hg0 hg1 hb0 hb1
    have er : max 0 (min 255 r) = r := by omega
    have eg : max 0 (min 255 g) = g := by omega
    have eb : max 0 (min 255 b) = b := by omega
    have hb2 := toString_int_facts b hb0 hb1
    have hmsg :
        ends_with_newline
          ("RGB=" ++ toString r ++ "," ++ toString g ++ "," ++ toString b) = false := by
      rw [show "RGB=" ++ toString r ++ "," ++ toString g ++ "," ++ toString b =
            ("RGB=" ++ toString r ++ "," ++ toString g ++ ",") ++ toString b by
          simp [String.append_assoc]]
      rw [ends_with_newline_append _ _ hb2.2]
      exact hb2.1
    simp only [rgb_command, er, eg, eb]
    rw [send_wire_append _ hmsg]
  · intro r g b
    have er : max 0 (min 255 (max 0 (min 255 r))) = max 0 (min 255 r) := by omega
    have eg : max 0 (min 255 (max 0 (min 255 g))) = max 0 (min 255 g) := by omega
    have eb : max 0 (min 255 (max 0 (min 255 b))) = max 0 (min 255 b) := by omega
    simp only [rgb_command, er, eg, eb]

/-- Witness for claim C5: the clamping theorem applied at concrete
in-range inputs. -/
theorem rgb_command_spec_witness :
    rgb_command 10 20 30 =
      "RGB=" ++ toString (10 : Int) ++ "," ++ toString (20 : Int) ++ "," ++
        toString (30 : Int) ++ "\n" :=
  rgb_command_spec.1 10 20 30 (by decide) (by decide) (by decide) (by decide)
    (by decide) (by decide)

/-- Claim C6. The latest-reading query returns the explicit no-data
value None whenever nothing has been published within its timeout: on
an empty mailbox the result is the ordinary value None, the operation
never raises for any mailbox contents, and the timeout it waits is the
2 seconds the source passes to Queue.get. -/
theorem get_state_no_data :
    (∀ q : List SensorPacket, q = [] → get_state q = Except.ok (none, [])) ∧
    (∀ q : List SensorPacket, ∃ r, get_state q = Except.ok r) ∧
    get_state_timeout = 2 := by
  refine ⟨fun q hq => by simp [hq, get_state], fun q => ?_, rfl⟩
  cases q with
  | nil => exact ⟨(none, []), rfl⟩
  | cons x rest => exact ⟨(some x, rest), rfl⟩

/-- Witness for claim C6: the query on the concrete empty mailbox. -/
theorem get_state_no_data_witness :
    get_state ([] : List SensorPacket) = Except.ok (none, []) :=
  get_state_no_data.1 [] rfl

/-- Claim C7. close is idempotent: a second call has the same
observable effect as the first, no error is raised (close has a total
result type: the suppressed close-time error never escapes), the
running flag is cleared, the connection ends up closed when the serial
handle is healthy, and when the handle is in an error state the
close-time exception is swallowed leaving the handle as it was. -/
theorem close_idempotent (d : Device) :
    Device.close (Device.close d) = Device.close d ∧
    (Device.close d).running = false ∧
    (d.ser.faulty = false →
      (Device.close d).ser.isOpen = false ∧
      (Device.close (Device.close d)).ser.isOpen = false) ∧
    (d.ser.faulty = true →
      Device.close d = { running := false, ser := d.ser }) := by
  obtain ⟨run, op, fau⟩ := d
  cases fau <;> simp [Device.close, serial_close]

/-- Witness for claim C7: idempotence and closing at a concrete
running device with a healthy serial handle. -/
theorem close_idempotent_witness :
    Device.close (Device.close ⟨true, ⟨true, false⟩⟩) =
      Device.close ⟨true, ⟨true, false⟩⟩ ∧
    (Device.close ⟨true, ⟨true, false⟩⟩).ser.isOpen = false :=
  ⟨(close_idempotent _).1, ((close_idempotent _).2.2.1 rfl).1⟩

/-- Claim C9. The mailbox holds at most one reading at all times: it
is created with maxsize 1 and starts empty, publish first drains every
element and then inserts exactly one without blocking or failing, take
only removes, and every operation preserves the bound of one on the
queue size. -/
theorem mailbox_at_most_one :
    mailbox_maxsize = 1 ∧
    mailbox_init.length ≤ 1 ∧
    (∀ (pkt : SensorPacket) (q : List SensorPacket),
      set_latest_package pkt q = Except.ok [pkt]) ∧
    (∀ q : List SensorPacket, clear_queue q = []) ∧
    (∀ (pkt : SensorPacket) (q q1 : List SensorPacket),
      set_latest_package pkt q = Except.ok q1 → q1.length ≤ 1) ∧
    (∀ (q : List SensorPacket) (r : Option SensorPacket)
      (q1 : List SensorPacket),
      get_state q = Except.ok (r, q1) → q1.length ≤ q.length) := by
  refine ⟨rfl, by simp [mailbox_init], set_latest_package_eq, clear_queue_eq_nil,
    ?_, ?_⟩
  · intro pkt q q1 h
    rw [set_latest_package_eq] at h
    cases h
    simp
  · intro q r q1 h
    cases q with
    | nil => cases h; simp
    | cons x rest =>
      simp only [get_state, Except.ok.injEq, Prod.mk.injEq] at h
      rw [← h.2]
      simp

/-- Witness for claim C9: the size bound at a concrete publish and a
concrete take. -/
theorem mailbox_at_most_one_witness :
    ([({ timestamp := 0 } : SensorPacket)]).length ≤ 1 ∧
    ([] : List SensorPacket).length ≤ [({ timestamp := 0 } : SensorPacket)].length :=
  ⟨mailbox_at_most_one.2.2.2.2.1 { timestamp := 0 } [] _
      (set_latest_package_eq _ _),
    mailbox_at_most_one.2.2.2.2.2 [{ timestamp := 0 }] (some { timestamp := 0 }) []
      rfl⟩

/-- Claim C10. When the mailbox yields a packet whose temperature
field is absent, get_current_temperature returns the string None
degrees celsius rather than the explicit unavailable value: str of the
None field renders as the text None, and the None result occurs
exactly when the mailbox itself has no packet. -/
theorem get_current_temperature_none_string :
    (∀ (p : SensorPacket) (q : List SensorPacket), p.hs3003_t_c = Json.null →
      get_current_temperature (p :: q) =
        Except.ok (some "None degrees celsius", q)) ∧
    (∀ q : List SensorPacket,
      get_current_temperature q = Except.ok ((none : Option String), q) ↔ q = []) := by
  have hnull : py_str Json.null = "None" := by
    simp [py_str, py_repr]
  constructor
  · intro p q hp
    have h1 : get_current_temperature (p :: q) =
        Except.ok (some (py_str p.hs3003_t_c ++ " degrees celsius"), q) := rfl
    rw [h1, hp, hnull]
    rfl
  · intro q
    cases q with
    | nil => simp [get_current_temperature, get_state]
    | cons x rest =>
      constructor
      · intro h
        have h1 : get_current_temperature (x :: rest) =
            Except.ok (some (py_str x.hs3003_t_c ++ " degrees celsius"), rest) := rfl
        rw [h1] at h
        simp at h
      · intro h
        cases h

/-- Witness for claim C10: a concrete packet whose temperature field
is absent, and the concrete empty mailbox. -/
theorem get_current_temperature_none_string_witness :
    get_current_temperature [{ timestamp := 0 }] =
      Except.ok (some "None degrees celsius", []) ∧
    (get_current_temperature ([] : List SensorPacket) =
        Except.ok ((none : Option String), []) ↔ ([] : List SensorPacket) = []) :=
  ⟨get_current_temperature_none_string.1 { timestamp := 0 } [] rfl,
    get_current_temperature_none_string.2 []⟩

/-! ## Dict lookup lemmas for claim C2 -/

/-- A successful dict lookup returns a value stored under that key. -/
theorem dict_get_mem {kvs : List (String × Json)} {k : String} {v : Json}
    (h : dict_get kvs k = some v) : (k, v) ∈ kvs := by
  induction kvs with
  | nil => cases h
  | cons p rest ih =>
    obtain ⟨k1, w⟩ := p
    simp only [dict_get] at h
    cases hrec : dict_get rest k with
    | some u =>
      rw [hrec] at h
      cases h
      exact List.mem_cons_of_mem _ (ih hrec)
    | none =>
      rw [hrec] at h
      by_cases hk : k1 = k
      · rw [if_pos hk] at h
        cases h
        subst hk
        exact List.mem_cons_self _ _
      · rw [if_neg hk] at h
        cases h

/-- A key stored in the pair list is found by dict lookup. -/
theorem dict_get_ne_none_of_mem {kvs : List (String × Json)} {k : String}
    {v : Json} (h : (k, v) ∈ kvs) : dict_get kvs k ≠ none := by
  induction kvs with
  | nil => cases h
  | cons p rest ih =>
    obtain ⟨k1, w⟩ := p
    simp only [dict_get]
    rcases List.mem_cons.mp h with heq | hmem
    · cases heq
      cases hrec : dict_get rest k with
      | some u => simp
      | none => simp
    · have hne := ih hmem
      cases hrec : dict_get rest k with
      | some u => simp
      | none => exact absurd hrec hne

/-- When every value stored under k is non-null, the Python field
value obj.get k is non-null exactly when k occurs in the object. -/
theorem py_dict_get_iff (kvs : List (String × Json)) (k : String)
    (hnn : ∀ v, (k, v) ∈ kvs → v ≠ Json.null) :
    py_dict_get kvs k ≠ Json.null ↔ ∃ v, (k, v) ∈ kvs := by
  unfold py_dict_get
  cases hrec : dict_get kvs k with
  | some w =>
    simp only [Option.getD_some]
    exact ⟨fun _ => ⟨w, dict_get_mem hrec⟩, fun _ => hnn w (dict_get_mem hrec)⟩
  | none =>
    simp only [Option.getD_none]
    constructor
    · intro h
      exact absurd rfl h
    · rintro ⟨v, hv⟩
      exact absurd hrec (dict_get_ne_none_of_mem hv)

/-- A correctly-typed wire value is never null. -/
theorem well_typed_ne_null (k : String) (v : Json)
    (h : well_typed_value k v = true) : v ≠ Json.null := by
  intro hv
  subst hv
  unfold well_typed_value at h
  split_ifs at h <;>
    simp [is_num_json, is_int_json, is_vec3_json, is_color4_json] at h

/-- Claim C2, amended. As stated the claim is false: the source does
no shape checking, so a recognized key with an incompatibly-shaped
value is stored as-is, not treated as absent (see the counterexample
theorem). What holds is: for every line that parses to a JSON object
whose recognized keys all carry correctly-typed values, parse_packet
returns a SensorPacket whose every recognized field equals the raw
dict lookup of its key (unrecognized keys are ignored), and whose
populated fields are exactly the keys present in the object. -/
theorem parse_packet_field_extraction
    (now : Nat) (line : String) (kvs : List (String × Json))
    (hparse : json_loads line = some (Json.obj kvs))
    (hwt : ∀ p ∈ kvs, p.1 ∈ recognized_keys → well_typed_value p.1 p.2 = true) :
    ∃ pkt : SensorPacket,
      parse_packet now line = Except.ok (some pkt) ∧
      pkt.timestamp = now ∧
      (∀ k ∈ recognized_keys,
        pkt.getField k = py_dict_get kvs k ∧
        (pkt.getField k ≠ Json.null ↔ ∃ v, (k, v) ∈ kvs)) := by
  refine ⟨{ timestamp := now
            hs3003_t_c := py_dict_get kvs "hs3003_t_c"
            hs3003_h_rh := py_dict_get kvs "hs3003_h_rh"
            lps22hb_p_kpa := py_dict_get kvs "lps22hb_p_kpa"
            lps22hb_t_c := py_dict_get kvs "lps22hb_t_c"
            apds_prox := py_dict_get kvs "apds_prox"
            apds_color := py_dict_get kvs "apds_color"
            apds_gesture := py_dict_get kvs "apds_gesture"
            acc_g := py_dict_get kvs "acc_g"
            gyro_dps := py_dict_get kvs "gyro_dps"
            mag_uT := py_dict_get kvs "mag_uT" }, ?_, rfl, ?_⟩
  · unfold parse_packet
    rw [hparse]
  · intro k hk
    have hnn : ∀ v, (k, v) ∈ kvs → v ≠ Json.null := fun v hv =>
      well_typed_ne_null k v (hwt (k, v) hv hk)
    have hiff := py_dict_get_iff kvs k hnn
    simp only [recognized_keys, List.mem_cons, List.not_mem_nil, or_false] at hk
    rcases hk with rfl | rfl | rfl | rfl | rfl | rfl | rfl | rfl | rfl | rfl <;>
      exact ⟨rfl, hiff⟩

/-- Counterexample for claim C2 as stated: the line assigning the
string x to the integer-typed key apds_prox decodes to a packet whose
apds_prox field holds that string — a recognized key with an
incompatibly-shaped value is not treated as absent. -/
theorem parse_packet_shape_counterexample :
    parse_packet 0 "\x7b\"apds_prox\": \"x\"\x7d" =
      Except.ok (some { timestamp := 0, apds_prox := Json.str "x" }) ∧
    Json.str "x" ≠ Json.null :=
  ⟨rfl, fun h => Json.noConfusion h⟩

/-- Witness for claim C2: the field-extraction theorem applied to a
concrete line with one recognized, correctly-typed key and one
unrecognized key. -/
theorem parse_packet_field_extraction_witness :
    ∃ pkt : SensorPacket,
      parse_packet 5 "\x7b\"apds_prox\": 7, \"zzz\": true\x7d" =
        Except.ok (some pkt) ∧
      pkt.timestamp = 5 ∧
      (∀ k ∈ recognized_keys,
        pkt.getField k =
          py_dict_get [("apds_prox", Json.inum 7), ("zzz", Json.bool true)] k ∧
        (pkt.getField k ≠ Json.null ↔
          ∃ v, (k, v) ∈ [("apds_prox", Json.inum 7), ("zzz", Json.bool true)])) :=
  parse_packet_field_extraction 5 _
    [("apds_prox", Json.inum 7), ("zzz", Json.bool true)] rfl (by decide)

/-! ## The publish/take race, claim C8 -/

/-- The invariant holds initially. -/
theorem raceInv_init (X : SensorPacket) : raceInv X raceInit := by
  simp [raceInv, raceInit]

/-- Every race transition preserves the invariant. -/
theorem raceInv_step (X : SensorPacket) (s s1 : MailboxRace)
    (hinv : raceInv X s) (hstep : raceStep X s s1) : raceInv X s1 := by
  cases hstep with
  | clearGet y rest t => simp [raceInv] at hinv
  | clearEmpty t => simpa [raceInv] using hinv
  | putOk t =>
    simp [raceInv] at hinv ⊢
    tauto
  | putFull y rest t => simp [raceInv] at hinv
  | takeGet y rest pc =>
    cases pc with
    | clearing => simp [raceInv] at hinv
    | putting => simp [raceInv] at hinv
    | done =>
      simp only [raceInv] at hinv ⊢
      rcases hinv with ⟨h1, _⟩ | ⟨h1, h2⟩
      · have hy : y = X ∧ rest = [] := by simpa using h1
        obtain ⟨rfl, rfl⟩ := hy
        right
        simp
      · simp at h1
    | crashed => simp [raceInv] at hinv
  | takeTO pc =>
    cases pc with
    | clearing => simp [raceInv] at hinv ⊢
    | putting => simp [raceInv] at hinv ⊢
    | done => simp [raceInv] at hinv
    | crashed => simp [raceInv] at hinv

/-- The invariant holds in every reachable state. -/
theorem raceInv_reachable (X : SensorPacket) (s : MailboxRace)
    (h : Relation.ReflTransGen (raceStep X) raceInit s) : raceInv X s := by
  induction h with
  | refl => exact raceInv_init X
  | tail hab hbc ih => exact raceInv_step X _ _ ih hbc

/-- Claim C8. In every interleaving of one publish of the reading X
(into a mailbox that has never held any other reading) with one
concurrent take, once both have finished the take either observed X
and the mailbox is empty, or the take timed out — which the model
permits only while the put had not yet happened — and X still sits in
the mailbox: the just-published reading is never torn or dropped. -/
theorem mailbox_race_no_lost_reading
    (X : SensorPacket) (s : MailboxRace) (r : Option SensorPacket)
    (hreach : Relation.ReflTransGen (raceStep X) raceInit s)
    (hdone : s.pc = PubPC.done) (htaken : s.taken = some r) :
    (r = some X ∧ s.q = []) ∨ (r = none ∧ s.q = [X]) := by
  have hinv := raceInv_reachable X s hreach
  obtain ⟨q, pc, taken⟩ := s
  simp only at hdone htaken
  subst hdone
  subst htaken
  simp [raceInv] at hinv
  rcases hinv with ⟨hq, hr⟩ | ⟨hq, hr⟩
  · exact Or.inr ⟨hr, hq⟩
  · exact Or.inl ⟨hr, hq⟩

/-- Witness for claim C8: the safety theorem applied to the concrete
complete interleaving clear, put, take of a concrete reading. -/
theorem mailbox_race_no_lost_reading_witness :
    (some ({ timestamp := 0 } : SensorPacket) =
        some ({ timestamp := 0 } : SensorPacket) ∧
      ([] : List SensorPacket) = []) ∨
    (some ({ timestamp := 0 } : SensorPacket) = none ∧
      ([] : List SensorPacket) = [{ timestamp := 0 }]) := by
  have step1 : raceStep { timestamp := 0 } raceInit
      ⟨[], PubPC.putting, none⟩ := raceStep.clearEmpty none
  have step2 : raceStep { timestamp := 0 } ⟨[], PubPC.putting, none⟩
      ⟨[{ timestamp := 0 }], PubPC.done, none⟩ := raceStep.putOk none
  have step3 : raceStep { timestamp := 0 }
      ⟨[{ timestamp := 0 }], PubPC.done, none⟩
      ⟨[], PubPC.done, some (some { timestamp := 0 })⟩ :=
    raceStep.takeGet { timestamp := 0 } [] PubPC.done
  have hreach : Relation.ReflTransGen (raceStep { timestamp := 0 }) raceInit
      ⟨[], PubPC.done, some (some { timestamp := 0 })⟩ :=
    Relation.ReflTransGen.tail
      (Relation.ReflTransGen.tail
        (Relation.ReflTransGen.tail Relation.ReflTransGen.refl step1) step2) step3
  exact mailbox_race_no_lost_reading { timestamp := 0 }
    ⟨[], PubPC.done, some (some { timestamp := 0 })⟩
    (some { timestamp := 0 }) hreach rfl rfl

end DevAIoT
